import Mathlib

/-!
# Brain Trust — Plan Execution & Trace Engine, shallow embedding

A shallow embedding of the plan-execution/trace code of the Brain Trust
repository, together with theorems settling the specification claims.

Embedded source locations:
* `src/frontend/components/ExecutionTraceView.tsx` — the `StepTrace` and
  `ExecutionTrace` record shapes.
* `src/frontend/components/WillowChat.tsx` — `createExecutionTrace`
  (projection of a plan plus backend step results into a trace) and
  `handleApprove` (the approval gate of the UI).
* `src/frontend/components/LegionInterface.tsx` — `handleExecutionUpdate`
  (the trace store fold).
* `src/willow-mcp-export/index.js` — the `CallToolRequestSchema` handler
  (tool-call routing and error capture).
* chorus tools (`chorus.js`) — `PERSONAS` and the `chorus_full_review`
  branch of `handleChorusTool`.

Timestamps (`timestamp: new Date()`) are presentation-only wall-clock
values never read back by any of the embedded logic, so they are omitted
from the records.  JavaScript numbers that are only copied verbatim and
never computed with (durations) are carried as `Nat`.
-/

namespace BrainTrust

/-- Step status of a trace step (`StepTrace.status` in
`ExecutionTraceView.tsx`): `pending | running | completed | failed |
blocked`. -/
inductive StepStatus
  | pending
  | running
  | completed
  | failed
  | blocked
deriving DecidableEq, Repr

/-- Plan-level status of an execution trace (`ExecutionTrace.status`):
`running | completed | failed`. -/
inductive ExecStatus
  | running
  | completed
  | failed
deriving DecidableEq, Repr

/-- `PlanStep` of `WillowChat.tsx`: a proposed step of a plan as returned
by the backend. -/
structure PlanStep where
  id : String
  order : Nat
  description : String
  agent_role : String
  status : String
deriving DecidableEq, Repr

/-- `Plan` of `WillowChat.tsx`. -/
structure Plan where
  id : String
  intent_summary : String
  project : String
  steps : List PlanStep
  status : String
deriving DecidableEq, Repr

/-- One entry of `execution_result.step_results` in `WillowChat.tsx`
(`WillowMessage.execution_result`). -/
structure StepResult where
  step_id : String
  result : String
  output : Option String := none
  error : Option String := none
  duration_seconds : Option Nat := none
  tools_called : Option (List String) := none
deriving DecidableEq, Repr

/-- `execution_result` payload of a backend response
(`WillowMessage.execution_result` in `WillowChat.tsx`). -/
structure ExecutionResult where
  status : String
  final_output : Option String := none
  step_results : Option (List StepResult) := none
  total_duration_seconds : Option Nat := none
deriving DecidableEq, Repr

/-- `StepTrace` of `ExecutionTraceView.tsx`. -/
structure StepTrace where
  id : String
  order : Nat
  agent_role : String
  description : String
  status : StepStatus
  duration_seconds : Option Nat := none
  output : Option String := none
  error : Option String := none
  tools_called : Option (List String) := none
deriving DecidableEq, Repr

/-- `ExecutionTrace` of `ExecutionTraceView.tsx` (minus the
presentation-only `timestamp`). -/
structure ExecutionTrace where
  id : String
  intent : String
  status : ExecStatus
  duration_seconds : Option Nat := none
  steps : List StepTrace
  final_output : Option String := none
deriving DecidableEq, Repr

/-- `result?.step_results?.find(r => r.step_id === step.id)` in
`createExecutionTrace`. -/
def lookupStepResult (result : Option ExecutionResult) (stepId : String) :
    Option StepResult :=
  result.bind fun r =>
    r.step_results.bind fun rs => rs.find? fun sr => sr.step_id == stepId

/-- The status ternary of `createExecutionTrace`:
`stepResult ? (result === 'success' ? 'completed' : result === 'blocked' ?
'blocked' : 'failed') : (status === 'running' ? (idx === 0 ? 'running' :
'pending') : 'pending')`. -/
def traceStepStatus (stepResult : Option StepResult) (status : ExecStatus)
    (idx : Nat) : StepStatus :=
  match stepResult with
  | some sr =>
    if sr.result == "success" then .completed
    else if sr.result == "blocked" then .blocked
    else .failed
  | none =>
    match status with
    | .running => if idx == 0 then .running else .pending
    | _ => .pending

/-- The body of the `plan.steps.map((step, idx) => ...)` callback in
`createExecutionTrace`.  `step.order || idx + 1` uses JavaScript
falsiness, so a zero `order` falls back to `idx + 1`. -/
def mkStepTrace (result : Option ExecutionResult) (status : ExecStatus)
    (idx : Nat) (step : PlanStep) : StepTrace :=
  let stepResult := lookupStepResult result step.id
  { id := step.id
    order := if step.order == 0 then idx + 1 else step.order
    agent_role := step.agent_role
    description := step.description
    status := traceStepStatus stepResult status idx
    duration_seconds := stepResult.bind StepResult.duration_seconds
    output := stepResult.bind StepResult.output
    error := stepResult.bind StepResult.error
    tools_called := stepResult.bind StepResult.tools_called }

/-- `createExecutionTrace` of `WillowChat.tsx`: project a plan, a
plan-level status and an optional backend execution result into the
observer-facing `ExecutionTrace`. -/
def createExecutionTrace (plan : Plan) (status : ExecStatus)
    (result : Option ExecutionResult) : ExecutionTrace :=
  { id := plan.id
    intent := plan.intent_summary
    status := status
    duration_seconds := result.bind ExecutionResult.total_duration_seconds
    steps := plan.steps.enum.map fun p => mkStepTrace result status p.1 p.2
    final_output := result.bind ExecutionResult.final_output }

/-- The `setExecutions` updater inside `handleExecutionUpdate`
(`LegionInterface.tsx`): replace the first stored trace whose `id`
matches the incoming one (`findIndex` + in-place assignment), else append
(`[...prev, execution]`).  The `activeAgents` avatar bookkeeping derived
below it in the source is presentation-only and reads nothing back. -/
def updateExecutions : List ExecutionTrace → ExecutionTrace → List ExecutionTrace
  | [], execution => [execution]
  | e :: rest, execution =>
    if e.id == execution.id then execution :: rest
    else e :: updateExecutions rest execution

/-- Read the stored trace for a plan id: first match wins, mirroring
`executions.findIndex(e => e.id === execution.id)` order. -/
def lookupExecution (store : List ExecutionTrace) (planId : String) :
    Option ExecutionTrace :=
  store.find? fun e => e.id == planId

/-! ## The approval gate (`handleApprove` in `WillowChat.tsx`) -/

/-- `WillowMessage.role`. -/
inductive MsgRole
  | user
  | willow
  | system
deriving DecidableEq, Repr

/-- `WillowMessage` of `WillowChat.tsx`, restricted to the fields
`handleApprove` writes (the presentation-only `timestamp` is omitted). -/
structure WillowMessage where
  role : MsgRole
  content : String
  execution_result : Option ExecutionResult := none
deriving DecidableEq, Repr

/-- The React state `handleApprove` reads and writes: the message log,
the plan awaiting decision and the current execution id. -/
structure ChatState where
  messages : List WillowMessage
  currentPlan : Option Plan
  currentExecutionId : Option String
deriving DecidableEq, Repr

/-- The `action` argument of `handleApprove`. -/
inductive ApproveAction
  | approve
  | cancel
  | modify
deriving DecidableEq, Repr

/-- Body of a successful `/api/v2/intent/approve` response. -/
structure ApproveResponse where
  message : String
  execution_result : Option ExecutionResult := none
deriving DecidableEq, Repr

/-- `handleApprove` of `WillowChat.tsx`.  The fetch outcome is a
parameter: `Except.ok` is a parsed response body, `Except.error` a thrown
error's message (network failure or abort).  Returns the new chat state
together with the list of traces pushed through `onExecutionUpdate`, in
emission order.  The running trace for an `approve` action is emitted
before the fetch, hence before either outcome. -/
def handleApprove (st : ChatState) (action : ApproveAction)
    (response : Except String ApproveResponse) :
    ChatState × List ExecutionTrace :=
  match st.currentPlan with
  | none => (st, [])
  | some plan =>
    let preEmits : List ExecutionTrace :=
      if action = .approve then [createExecutionTrace plan .running none]
      else []
    match response with
    | .ok data =>
      let postEmits : List ExecutionTrace :=
        match data.execution_result with
        | some er =>
          [createExecutionTrace plan
            (if er.status == "completed" then .completed else .failed)
            (some er)]
        | none => []
      let messages := st.messages ++
        [{ role := .willow, content := data.message,
           execution_result := data.execution_result }]
      let clear : Bool := action = .approve ∨ action = .cancel
      ({ messages := messages
         currentPlan := if clear then none else st.currentPlan
         currentExecutionId := if clear then none else st.currentExecutionId },
       preEmits ++ postEmits)
    | .error errorMsg =>
      let messages := st.messages ++
        [{ role := .system, content := "Error: " ++ errorMsg }]
      ({ messages := messages
         currentPlan := st.currentPlan
         currentExecutionId := st.currentExecutionId },
       preEmits ++ [createExecutionTrace plan .failed none])

/-! ## The MCP tool-call router (`src/willow-mcp-export/index.js`) -/

/-- One entry of an MCP tool response's `content` array. -/
structure ContentItem where
  type : String
  text : String
deriving DecidableEq, Repr

/-- An MCP tool response (`{ content, isError }`); `isError` is absent in
success responses, modeled as the default `false`. -/
structure ToolResponse where
  content : List ContentItem
  isError : Bool := false
deriving DecidableEq, Repr

/-- JavaScript `name.startsWith(p)`, phrased on the character sequences of
the strings so that concrete instances evaluate in the kernel. -/
def jsStartsWith (s p : String) : Bool := p.data.isPrefixOf s.data

/-- The `CallToolRequestSchema` handler of `index.js`: route on the tool
name, and catch every thrown error into a text response flagged
`isError: true`.  The three tool handlers live in other modules and are
parameters here; a thrown JavaScript error is `Except.error` carrying its
`message`, so `throw new Error(...)` inside a handler also lands in the
catch branch. -/
def callToolRequestHandler {α : Type}
    (hDrive hMemory hChorus : String → α → Except String ToolResponse)
    (name : String) (args : α) : ToolResponse :=
  let routed : Except String ToolResponse :=
    if jsStartsWith name "drive_" then hDrive name args
    else if jsStartsWith name "memory_" then hMemory name args
    else if jsStartsWith name "chorus_" then hChorus name args
    else Except.error ("Unknown tool: " ++ name)
  match routed with
  | .ok r => r
  | .error msg =>
    { content := [{ type := "text", text := "Error: " ++ msg }]
      isError := true }

/-! ## The chorus fan-out (`chorus_full_review` in the chorus tools) -/

/-- A worker persona of the chorus tools.  The `prompt` field of the
source — free prose handed verbatim to the external model API and never
branched on — is not carried. -/
structure Persona where
  name : String
deriving DecidableEq, Repr

/-- The apostrophe character, U+0027. -/
def apostrophe : String := String.singleton (Char.ofNat 39)

/-- The `PERSONAS` table of the chorus tools file (key → persona). -/
def PERSONAS : String → Option Persona
  | "harsh_critic" => some { name := "The Harsh Critic" }
  | "supportive_reader" => some { name := "The Supportive Reader" }
  | "copy_editor" => some { name := "The Copy Editor" }
  | "genre_expert" => some { name := "The Genre Expert" }
  | "character_analyst" => some { name := "The Character Analyst" }
  | "devil_advocate" =>
    some { name := "The Devil" ++ apostrophe ++ "s Advocate" }
  | _ => none

/-- One element of the `validResults` array of `chorus_full_review`. -/
structure PersonaFeedback where
  persona : String
  feedback : String
deriving DecidableEq, Repr

/-- Default persona selection of `chorus_full_review`
(`args.personas || ['harsh_critic', 'supportive_reader',
'copy_editor']`). -/
def defaultReviewPersonas : List String :=
  ["harsh_critic", "supportive_reader", "copy_editor"]

/-- One fan-out arm of `chorus_full_review` (the async callback of
`selectedPersonas.map`): an unknown persona key resolves to `null`; a
known persona invokes the worker — the external model call, which either
yields feedback text or rejects with an error. -/
def reviewArm (worker : String → Except String String) (personaKey : String) :
    Except String (Option PersonaFeedback) :=
  match PERSONAS personaKey with
  | none => .ok none
  | some persona =>
    (worker personaKey).map fun feedback =>
      some { persona := persona.name, feedback := feedback }

/-- `await Promise.all(feedbackPromises)`: every arm resolves and the
results are gathered in order, or the whole gathering rejects with a
failing arm's error (the first in list order here; `Promise.all` rejects
with whichever arm rejects first in time). -/
def gatherArms (worker : String → Except String String) :
    List String → Except String (List (Option PersonaFeedback))
  | [] => .ok []
  | k :: rest =>
    match reviewArm worker k with
    | .error e => .error e
    | .ok r =>
      match gatherArms worker rest with
      | .error e => .error e
      | .ok rs => .ok (r :: rs)

/-- The fixed heading of the review response. -/
def reviewHeader : String := "# Multi-Perspective Review\n\n"

/-- One iteration of the response-building loop of
`chorus_full_review`. -/
def sectionText (r : PersonaFeedback) : String :=
  "## " ++ r.persona ++ "\n\n" ++ r.feedback ++ "\n\n---\n\n"

/-- The `chorus_full_review` branch of `handleChorusTool`.  `personasArg`
is `args.personas` (`none` when absent, defaulted by `||`); an
`Except.error` result is the exception propagating out of
`handleChorusTool` to the router's catch. -/
def chorusFullReview (worker : String → Except String String)
    (personasArg : Option (List String)) : Except String ToolResponse :=
  let selectedPersonas := personasArg.getD defaultReviewPersonas
  match gatherArms worker selectedPersonas with
  | .error e => .error e
  | .ok results =>
    let validResults := results.filterMap id
    let response := validResults.foldl (fun acc r => acc ++ sectionText r)
      reviewHeader
    .ok { content := [{ type := "text", text := response }] }

/-! ## The step-status mapping as worded by the specification -/

/-- The step-status mapping exactly as the specification words it, to be
compared with the mapping the source implements: `completed` iff the
result equals `success`, `blocked` iff it equals `blocked`, `failed` for
every other result value; with no result entry, `running` only for the
first step of a running plan, else `pending`. -/
def claimedStepStatus (entry : Option StepResult) (planStatus : ExecStatus)
    (isFirst : Bool) : StepStatus :=
  match entry with
  | some sr =>
    if sr.result = "success" then .completed
    else if sr.result = "blocked" then .blocked
    else .failed
  | none =>
    if planStatus = .running ∧ isFirst = true then .running else .pending

/-! ## Concrete fixtures -/

/-- First step of the two-step demonstration plan. -/
def demoStep1 : PlanStep :=
  { id := "s1", order := 1, description := "draft the story",
    agent_role := "Writer", status := "pending" }

/-- Second step of the two-step demonstration plan. -/
def demoStep2 : PlanStep :=
  { id := "s2", order := 2, description := "edit the story",
    agent_role := "Editor", status := "pending" }

/-- A two-step demonstration plan. -/
def demoPlan : Plan :=
  { id := "plan-1", intent_summary := "write a story", project := "demo",
    steps := [demoStep1, demoStep2], status := "proposed" }

/-- A one-step demonstration plan. -/
def onePlan : Plan :=
  { id := "plan-2", intent_summary := "edit a chapter", project := "demo",
    steps := [demoStep1], status := "proposed" }

/-- A backend execution result with a successful entry for step `s1`. -/
def demoResult : ExecutionResult :=
  { status := "completed",
    step_results := some [{ step_id := "s1", result := "success",
                            output := some "a draft" }] }

/-! ## Trace-store lemmas -/

/-- After an update, the stored trace for the incoming id is exactly the
incoming trace. -/
theorem lookup_update_self (store : List ExecutionTrace) (ex : ExecutionTrace) :
    lookupExecution (updateExecutions store ex) ex.id = some ex := by
  induction store with
  | nil => simp [updateExecutions, lookupExecution]
  | cons e rest ih =>
    by_cases h : e.id = ex.id
    · simp [updateExecutions, lookupExecution, h]
    · simp only [updateExecutions, lookupExecution] at *
      simp only [if_neg (by simp [h] : ¬(e.id == ex.id) = true)]
      rw [List.find?_cons_of_neg _ (by simp [h]), ih]

/-- An update leaves the stored trace of every other plan id unchanged. -/
theorem lookup_update_other (store : List ExecutionTrace) (ex : ExecutionTrace)
    (pid : String) (h : ex.id ≠ pid) :
    lookupExecution (updateExecutions store ex) pid =
      lookupExecution store pid := by
  induction store with
  | nil => simp [updateExecutions, lookupExecution, h]
  | cons e rest ih =>
    by_cases he : e.id = ex.id
    · simp [updateExecutions, lookupExecution, he, h]
    · simp only [updateExecutions, lookupExecution] at *
      simp only [if_neg (by simp [he] : ¬(e.id == ex.id) = true)]
      cases hpe : (e.id == pid) <;> simp [List.find?_cons, hpe, ih]

/-- Folding a batch of events none of which concerns `pid` leaves the
stored trace for `pid` unchanged. -/
theorem lookup_foldl_untouched (events : List ExecutionTrace) (pid : String)
    (h : ∀ e ∈ events, e.id ≠ pid) (s : List ExecutionTrace) :
    lookupExecution (events.foldl updateExecutions s) pid =
      lookupExecution s pid := by
  induction events generalizing s with
  | nil => rfl
  | cons e rest ih =>
    simp only [List.foldl_cons]
    rw [ih (fun e' he' => h e' (List.mem_cons_of_mem _ he'))]
    exact lookup_update_other s e pid (h e (List.mem_cons_self _ _))

/-- The stored trace for a plan after a fold of events is independent of
the starting store, as soon as at least one event concerns that plan. -/
theorem replay_agrees (events : List ExecutionTrace) (pid : String)
    (h : ∃ e ∈ events, e.id = pid) (s1 s2 : List ExecutionTrace) :
    lookupExecution (events.foldl updateExecutions s1) pid =
      lookupExecution (events.foldl updateExecutions s2) pid := by
  induction events generalizing s1 s2 with
  | nil => exact absurd h (by simp)
  | cons e rest ih =>
    simp only [List.foldl_cons]
    by_cases hb : ∃ e' ∈ rest, e'.id = pid
    · exact ih hb _ _
    · push_neg at hb
      have he : e.id = pid := by
        rcases h with ⟨e', he', hid⟩
        rcases List.mem_cons.mp he' with rfl | hmem
        · exact hid
        · exact absurd hid (hb e' hmem)
      rw [lookup_foldl_untouched rest pid hb, lookup_foldl_untouched rest pid hb]
      subst he
      rw [lookup_update_self, lookup_update_self]

/-! ## Projection lemmas -/

/-- Index-wise description of the steps of a built trace: the `k`-th
trace step is the projection of the `k`-th plan step. -/
theorem createExecutionTrace_steps_getElem? (plan : Plan) (status : ExecStatus)
    (res : Option ExecutionResult) (k : Nat) :
    (createExecutionTrace plan status res).steps[k]? =
      (plan.steps[k]?).map (mkStepTrace res status k) := by
  simp only [createExecutionTrace, List.getElem?_map, List.getElem?_enum]
  cases plan.steps[k]? <;> rfl

/-! ## Claim C1 -/

/-- C1 counterexample: the trace store does not reject backward
transitions.  A first update records step `s1` as `completed`; a second
update for the same plan id carrying `s1` as `pending` is accepted and
replaces it, so the step recorded `completed` reverts to `pending`. -/
theorem C1_counterexample :
    (lookupExecution
        (updateExecutions
          (updateExecutions []
            { id := "plan-1", intent := "demo", status := .completed
              steps := [{ id := "s1", order := 1, agent_role := "Writer",
                          description := "write", status := .completed }] })
          { id := "plan-1", intent := "demo", status := .running
            steps := [{ id := "s1", order := 1, agent_role := "Writer",
                        description := "write", status := .pending }] })
        "plan-1").map (fun t => t.steps.map StepTrace.status) =
      some [StepStatus.pending]
    ∧ (lookupExecution
        (updateExecutions []
          { id := "plan-1", intent := "demo", status := .completed
            steps := [{ id := "s1", order := 1, agent_role := "Writer",
                        description := "write", status := .completed }] })
        "plan-1").map (fun t => t.steps.map StepTrace.status) =
      some [StepStatus.completed] :=
  ⟨rfl, rfl⟩

/-- C1 (amended): the trace store is last-write-wins per plan id — an
update replaces the stored trace for that id wholesale (or appends when
the id is new), so after any update the stored trace for the incoming
plan id is exactly the trace just delivered; no transition check is
performed and backward transitions are not rejected. -/
theorem C1_store_last_write_wins (store : List ExecutionTrace)
    (ex : ExecutionTrace) :
    lookupExecution (updateExecutions store ex) ex.id = some ex :=
  lookup_update_self store ex

/-! ## Claim C7 -/

/-- C7: replay round-trip.  For a plan that has at least one recorded
event, feeding the full recorded event sequence, in emission order, into
a fresh empty trace store reproduces exactly the final trace held by a
store that received the same sequence on top of any prior contents. -/
theorem C7_replay_roundtrip (events : List ExecutionTrace) (pid : String)
    (h : ∃ e ∈ events, e.id = pid) (s : List ExecutionTrace) :
    lookupExecution (events.foldl updateExecutions []) pid =
      lookupExecution (events.foldl updateExecutions s) pid :=
  replay_agrees events pid h [] s

/-- C7 witness: a concrete two-event sequence for plan `plan-1`, replayed
into an empty store versus a store already holding a trace of another
plan. -/
theorem C7_replay_roundtrip_witness :
    lookupExecution
        ([{ id := "plan-1", intent := "demo", status := .running,
            steps := [] },
          { id := "plan-1", intent := "demo", status := .completed,
            steps := [] }].foldl updateExecutions []) "plan-1" =
      lookupExecution
        ([{ id := "plan-1", intent := "demo", status := .running,
            steps := [] },
          { id := "plan-1", intent := "demo", status := .completed,
            steps := [] }].foldl updateExecutions
          [{ id := "plan-0", intent := "other", status := .failed,
             steps := [] }]) "plan-1" :=
  C7_replay_roundtrip _ "plan-1" (by decide) _

/-! ## Claim C2 -/

/-- C2 counterexample: a trace reported `completed` can hold a `pending`
step (a step with no backend result entry stays `pending` even on a
completed plan), and can hold zero `completed` steps (here the only step
failed while the trace is still reported `completed`). -/
theorem C2_counterexample :
    ((createExecutionTrace onePlan .completed
        (some { status := "completed", step_results := some [] })).status =
        .completed
      ∧ (createExecutionTrace onePlan .completed
          (some { status := "completed", step_results := some [] })).steps.map
          StepTrace.status = [.pending])
    ∧ (createExecutionTrace onePlan .completed
        (some { status := "completed",
                step_results :=
                  some [{ step_id := "s1", result := "failure" }] })).steps.map
        StepTrace.status = [.failed] :=
  ⟨⟨rfl, rfl⟩, rfl⟩

/-- C2 (amended): on a trace reported `completed`, no step is `running`,
and every step that has a backend result entry has a terminal status; in
particular, when every plan step has a result entry, every step of the
trace is terminal.  A step without a result entry remains `pending`, and
no minimum of one `completed` step is enforced. -/
theorem C2_completed_trace_step_statuses (plan : Plan)
    (res : Option ExecutionResult) :
    (∀ t ∈ (createExecutionTrace plan .completed res).steps,
      t.status ≠ .running) ∧
    ((∀ step ∈ plan.steps, (lookupStepResult res step.id).isSome = true) →
      ∀ t ∈ (createExecutionTrace plan .completed res).steps,
        t.status = .completed ∨ t.status = .failed ∨ t.status = .blocked) := by
  constructor
  · intro t ht
    simp only [createExecutionTrace] at ht
    rcases List.mem_map.mp ht with ⟨p, hp, rfl⟩
    show traceStepStatus (lookupStepResult res p.2.id) .completed p.1 ≠ .running
    cases lookupStepResult res p.2.id with
    | none => simp [traceStepStatus]
    | some sr =>
      show (if sr.result == "success" then StepStatus.completed
        else if sr.result == "blocked" then .blocked else .failed) ≠ .running
      split_ifs <;> simp
  · intro hall t ht
    simp only [createExecutionTrace] at ht
    rcases List.mem_map.mp ht with ⟨p, hp, rfl⟩
    have hmem : p.2 ∈ plan.steps :=
      List.getElem?_mem (List.mem_enum_iff_getElem?.mp hp)
    have hsome := hall p.2 hmem
    have hstat : (mkStepTrace res .completed p.1 p.2).status =
        traceStepStatus (lookupStepResult res p.2.id) .completed p.1 := rfl
    rw [hstat]
    cases hsr : lookupStepResult res p.2.id with
    | none => rw [hsr] at hsome; cases hsome
    | some sr =>
      show (if sr.result == "success" then StepStatus.completed
        else if sr.result == "blocked" then .blocked else .failed) = _ ∨
        (if sr.result == "success" then StepStatus.completed
        else if sr.result == "blocked" then .blocked else .failed) = _ ∨
        (if sr.result == "success" then StepStatus.completed
        else if sr.result == "blocked" then .blocked else .failed) = _
      split_ifs <;> simp

/-- C2 witness: on a concrete completed trace whose only step has a
result entry, the step's status is terminal. -/
theorem C2_witness :
    (mkStepTrace (some demoResult) .completed 0 demoStep1).status = .completed ∨
      (mkStepTrace (some demoResult) .completed 0 demoStep1).status = .failed ∨
      (mkStepTrace (some demoResult) .completed 0 demoStep1).status = .blocked :=
  (C2_completed_trace_step_statuses onePlan (some demoResult)).2
    (by decide) (mkStepTrace (some demoResult) .completed 0 demoStep1) (by decide)

/-! ## Claim C5 -/

/-- C5: on approval of a pending plan, the first emitted trace — pushed
before the backend request, hence before any step results exist — has
plan status `running`, its step at list position 0 `running`, and every
other step `pending`. -/
theorem C5_approve_emits_initial_running_trace (st : ChatState) (plan : Plan)
    (response : Except String ApproveResponse)
    (h : st.currentPlan = some plan) :
    (handleApprove st .approve response).2.head? =
      some (createExecutionTrace plan .running none) ∧
    (createExecutionTrace plan .running none).status = .running ∧
    ∀ (k : Nat) (t : StepTrace),
      (createExecutionTrace plan .running none).steps[k]? = some t →
      t.status = if k = 0 then .running else .pending := by
  refine ⟨?_, rfl, ?_⟩
  · cases response with
    | ok data =>
      simp only [handleApprove, h]
      cases data.execution_result <;> rfl
    | error e => simp [handleApprove, h]
  · intro k t ht
    rw [createExecutionTrace_steps_getElem?] at ht
    cases hs : plan.steps[k]? with
    | none => rw [hs] at ht; cases ht
    | some step =>
      rw [hs] at ht
      injection ht with ht
      subst ht
      show traceStepStatus (lookupStepResult none step.id) .running k = _
      by_cases hk : k = 0
      · subst hk; rfl
      · simp [traceStepStatus, lookupStepResult, hk]

/-- C5 witness: approving the two-step demonstration plan emits the
running trace first, with step 0 `running` and step 1 `pending`. -/
theorem C5_witness :
    (handleApprove
        { messages := [], currentPlan := some demoPlan,
          currentExecutionId := some "plan-1" } .approve
        (.ok { message := "executing" })).2.head? =
      some (createExecutionTrace demoPlan .running none) ∧
    (createExecutionTrace demoPlan .running none).status = .running ∧
    (mkStepTrace none .running 1 demoStep2).status = .pending := by
  have h := C5_approve_emits_initial_running_trace
    { messages := [], currentPlan := some demoPlan,
      currentExecutionId := some "plan-1" } demoPlan
    (.ok { message := "executing" }) rfl
  refine ⟨h.1, h.2.1, ?_⟩
  have := h.2.2 1 (mkStepTrace none .running 1 demoStep2) (by rfl)
  rw [this]
  rfl

/-! ## Claim C6 -/

/-- C6 counterexample: `output` and `error` are not mutually exclusive —
a backend result entry carrying `result: success`, an `output` and an
`error` at once projects to a `completed` step holding both. -/
theorem C6_counterexample :
    (createExecutionTrace onePlan .completed
        (some { status := "completed",
                step_results :=
                  some [{ step_id := "s1", result := "success",
                          output := some "the draft",
                          error := some "timeout" }] })).steps.map
        (fun t => (t.status, t.output, t.error)) =
      [(.completed, some "the draft", some "timeout")] :=
  rfl

/-- C6 (amended): a trace step's `output` and `error` are copied verbatim
from the step's backend result entry, whatever the step's status; a step
with no result entry carries neither.  The projection itself does not
enforce mutual exclusivity. -/
theorem C6_output_error_copied (plan : Plan) (status : ExecStatus)
    (res : Option ExecutionResult) (k : Nat) (step : PlanStep)
    (h : plan.steps[k]? = some step) :
    (createExecutionTrace plan status res).steps[k]? =
      some (mkStepTrace res status k step) ∧
    (mkStepTrace res status k step).output =
      (lookupStepResult res step.id).bind StepResult.output ∧
    (mkStepTrace res status k step).error =
      (lookupStepResult res step.id).bind StepResult.error ∧
    (lookupStepResult res step.id = none →
      (mkStepTrace res status k step).output = none ∧
      (mkStepTrace res status k step).error = none) := by
  refine ⟨?_, rfl, rfl, fun hn => ?_⟩
  · rw [createExecutionTrace_steps_getElem?, h]; rfl
  · constructor <;>
      · show (lookupStepResult res step.id).bind _ = none
        rw [hn]
        rfl

/-- C6 witness: with no backend result at all, the projected first step
of the demonstration plan carries neither `output` nor `error`. -/
theorem C6_witness :
    (mkStepTrace none .running 0 demoStep1).output = none ∧
    (mkStepTrace none .running 0 demoStep1).error = none :=
  (C6_output_error_copied demoPlan .running none 0 demoStep1 rfl).2.2.2 rfl

/-! ## Claim C9 -/

/-- C9: the trace projection assigns each step exactly one status, and
the mapping agrees with the claim's wording: `completed` iff the result
entry says `success`, `blocked` iff it says `blocked`, `failed` for every
other result value; a step with no entry is `pending`, or `running`
exactly when it is the first step of a plan whose status is `running`. -/
theorem C9_step_status_mapping (plan : Plan) (status : ExecStatus)
    (res : Option ExecutionResult) (k : Nat) (step : PlanStep)
    (h : plan.steps[k]? = some step) :
    (createExecutionTrace plan status res).steps[k]? =
      some (mkStepTrace res status k step) ∧
    (mkStepTrace res status k step).status =
      claimedStepStatus (lookupStepResult res step.id) status (k == 0) := by
  constructor
  · rw [createExecutionTrace_steps_getElem?, h]; rfl
  · show traceStepStatus (lookupStepResult res step.id) status k = _
    cases lookupStepResult res step.id with
    | some sr =>
      show (if sr.result == "success" then StepStatus.completed
          else if sr.result == "blocked" then .blocked else .failed) = _
      simp only [claimedStepStatus, beq_iff_eq]
    | none =>
      cases status <;> cases hk : (k == 0) <;>
        simp [traceStepStatus, claimedStepStatus, hk]

/-- C9 witness: the first demonstration step with a `success` entry under
a running plan maps to `completed`, matching the claimed mapping. -/
theorem C9_witness :
    (createExecutionTrace demoPlan .running (some demoResult)).steps[0]? =
      some (mkStepTrace (some demoResult) .running 0 demoStep1) ∧
    (mkStepTrace (some demoResult) .running 0 demoStep1).status =
      claimedStepStatus (lookupStepResult (some demoResult) demoStep1.id)
        .running (0 == 0) :=
  C9_step_status_mapping demoPlan .running (some demoResult) 0 demoStep1 rfl

/-! ## Claim C4 -/

/-- C4 counterexample: no `AlreadyDecided` failure exists.  After a first
`approve` call is processed, the plan slot is cleared, and a second
`decide` call on the same plan id is a silent no-op: it returns the state
unchanged — in particular it appends no error message — and emits
nothing, instead of failing with `AlreadyDecided`. -/
theorem C4_counterexample :
    (handleApprove
        { messages := [], currentPlan := some demoPlan,
          currentExecutionId := some "plan-1" } .approve
        (.ok { message := "done", execution_result := some demoResult })).1.currentPlan
      = none
    ∧ handleApprove
        (handleApprove
          { messages := [], currentPlan := some demoPlan,
            currentExecutionId := some "plan-1" } .approve
          (.ok { message := "done", execution_result := some demoResult })).1
        .approve
        (.ok { message := "done", execution_result := some demoResult }) =
      ((handleApprove
          { messages := [], currentPlan := some demoPlan,
            currentExecutionId := some "plan-1" } .approve
          (.ok { message := "done", execution_result := some demoResult })).1,
        []) :=
  ⟨rfl, rfl⟩

/-- C4 (amended): calling `decide` again once the plan slot has been
cleared by a prior decision is a silent no-op — the message log and the
(absent) current plan are unchanged and no trace update is emitted; no
`AlreadyDecided` error is raised, there being no error path at all. -/
theorem C4_second_decide_silent_noop (st : ChatState) (action : ApproveAction)
    (response : Except String ApproveResponse) (h : st.currentPlan = none) :
    (handleApprove st action response).1.messages = st.messages ∧
    (handleApprove st action response).1.currentPlan = none ∧
    (handleApprove st action response).2 = [] := by
  simp [handleApprove, h]

/-- C4 witness: the no-op behavior at a concrete already-decided state. -/
theorem C4_second_decide_silent_noop_witness :
    (handleApprove
        { messages := [{ role := .willow, content := "done" }],
          currentPlan := none, currentExecutionId := none } .approve
        (.ok { message := "again" })).1.messages =
      [{ role := .willow, content := "done" }] ∧
    (handleApprove
        { messages := [{ role := .willow, content := "done" }],
          currentPlan := none, currentExecutionId := none } .approve
        (.ok { message := "again" })).1.currentPlan = none ∧
    (handleApprove
        { messages := [{ role := .willow, content := "done" }],
          currentPlan := none, currentExecutionId := none } .approve
        (.ok { message := "again" })).2 = [] :=
  C4_second_decide_silent_noop
    { messages := [{ role := .willow, content := "done" }],
      currentPlan := none, currentExecutionId := none } .approve
    (.ok { message := "again" }) rfl

/-! ## Claim C8 -/

/-- C8: once the plan slot is cleared — which is what reaching a decision
does — any further `decide` or `cancel` call is idempotent: the whole
call is a no-op returning the state unchanged with no emission, and it
raises no error. -/
theorem C8_decide_cancel_idempotent (st : ChatState) (action : ApproveAction)
    (response : Except String ApproveResponse) (h : st.currentPlan = none) :
    handleApprove st action response = (st, []) := by
  simp [handleApprove, h]

/-- C8 witness: a concrete `cancel` call on a decided state is the
identity. -/
theorem C8_decide_cancel_idempotent_witness :
    handleApprove
        { messages := [], currentPlan := none, currentExecutionId := none }
        .cancel (.ok { message := "nothing to cancel" }) =
      ({ messages := [], currentPlan := none, currentExecutionId := none },
        []) :=
  C8_decide_cancel_idempotent
    { messages := [], currentPlan := none, currentExecutionId := none }
    .cancel (.ok { message := "nothing to cancel" }) rfl

/-! ## Claim C10 -/

/-- C10: the tool-call handler always returns a response — exceptions are
modeled as `Except.error`, and every error lands in the catch clause.  A
`drive_`/`memory_`/`chorus_` name is routed to the matching handler and a
successful handler result is returned as-is; an unrecognized name, or an
error thrown inside a routed handler, yields a text response whose text
begins with `Error: ` and whose `isError` flag is `true`. -/
theorem C10_router_total_error_capture {α : Type}
    (hDrive hMemory hChorus : String → α → Except String ToolResponse)
    (name : String) (args : α) :
    (jsStartsWith name "drive_" = false → jsStartsWith name "memory_" = false →
      jsStartsWith name "chorus_" = false →
      callToolRequestHandler hDrive hMemory hChorus name args =
        { content := [{ type := "text",
                        text := "Error: " ++ ("Unknown tool: " ++ name) }],
          isError := true })
    ∧ (∀ r, jsStartsWith name "drive_" = true → hDrive name args = .ok r →
        callToolRequestHandler hDrive hMemory hChorus name args = r)
    ∧ (∀ e, jsStartsWith name "drive_" = true → hDrive name args = .error e →
        callToolRequestHandler hDrive hMemory hChorus name args =
          { content := [{ type := "text", text := "Error: " ++ e }],
            isError := true })
    ∧ (∀ r, jsStartsWith name "drive_" = false →
        jsStartsWith name "memory_" = true → hMemory name args = .ok r →
        callToolRequestHandler hDrive hMemory hChorus name args = r)
    ∧ (∀ e, jsStartsWith name "drive_" = false →
        jsStartsWith name "memory_" = true → hMemory name args = .error e →
        callToolRequestHandler hDrive hMemory hChorus name args =
          { content := [{ type := "text", text := "Error: " ++ e }],
            isError := true })
    ∧ (∀ r, jsStartsWith name "drive_" = false →
        jsStartsWith name "memory_" = false →
        jsStartsWith name "chorus_" = true → hChorus name args = .ok r →
        callToolRequestHandler hDrive hMemory hChorus name args = r)
    ∧ (∀ e, jsStartsWith name "drive_" = false →
        jsStartsWith name "memory_" = false →
        jsStartsWith name "chorus_" = true → hChorus name args = .error e →
        callToolRequestHandler hDrive hMemory hChorus name args =
          { content := [{ type := "text", text := "Error: " ++ e }],
            isError := true }) := by
  refine ⟨fun h1 h2 h3 => ?_, fun r h1 hr => ?_, fun e h1 he => ?_,
    fun r h1 h2 hr => ?_, fun e h1 h2 he => ?_,
    fun r h1 h2 h3 hr => ?_, fun e h1 h2 h3 he => ?_⟩ <;>
    simp_all [callToolRequestHandler]

/-- C10 witness: an unrecognized tool name yields the flagged error
response, and a chorus handler error is captured into one. -/
theorem C10_router_total_error_capture_witness :
    callToolRequestHandler
        (fun _ (_ : Unit) => .ok { content := [] })
        (fun _ _ => .ok { content := [] })
        (fun _ _ => .error "ANTHROPIC_API_KEY must be set for chorus features")
        "bogus_tool" () =
      { content := [{ type := "text",
                      text := "Error: " ++ ("Unknown tool: " ++ "bogus_tool") }],
        isError := true }
    ∧ callToolRequestHandler
        (fun _ (_ : Unit) => .ok { content := [] })
        (fun _ _ => .ok { content := [] })
        (fun _ _ => .error "ANTHROPIC_API_KEY must be set for chorus features")
        "chorus_full_review" () =
      { content := [{ type := "text",
                      text := "Error: " ++
                        "ANTHROPIC_API_KEY must be set for chorus features" }],
        isError := true } :=
  ⟨(C10_router_total_error_capture _ _ _ "bogus_tool" ()).1
      (by decide) (by decide) (by decide),
    (C10_router_total_error_capture _ _ _ "chorus_full_review" ()).2.2.2.2.2.2
      "ANTHROPIC_API_KEY must be set for chorus features"
      (by decide) (by decide) (by decide) rfl⟩

/-! ## Chorus fan-out lemmas -/

/-- When every worker invocation succeeds, the gathering resolves with
one entry per selected persona key, in order: the feedback record for a
known key, `null` for an unknown one. -/
theorem gatherArms_ok (wf : String → String) (personas : List String) :
    gatherArms (fun k => .ok (wf k)) personas =
      .ok (personas.map fun k =>
        (PERSONAS k).map fun p => PersonaFeedback.mk p.name (wf k)) := by
  induction personas with
  | nil => rfl
  | cons k rest ih =>
    simp only [gatherArms, reviewArm, List.map_cons, ih]
    cases PERSONAS k <;> rfl

/-- If the worker of any selected, known persona rejects, the whole
gathering rejects. -/
theorem gatherArms_error (worker : String → Except String String)
    (personas : List String) (k : String) (e : String)
    (hk : k ∈ personas) (hp : (PERSONAS k).isSome = true)
    (he : worker k = .error e) :
    ∃ e2, gatherArms worker personas = .error e2 := by
  induction personas with
  | nil => cases hk
  | cons k0 rest ih =>
    cases harm : reviewArm worker k0 with
    | error e0 => exact ⟨e0, by simp [gatherArms, harm]⟩
    | ok r =>
      rcases List.mem_cons.mp hk with rfl | hmem
      · exfalso
        rcases Option.isSome_iff_exists.mp hp with ⟨p, hps⟩
        rw [reviewArm, hps, he] at harm
        cases harm
      · rcases ih hmem with ⟨e2, h2⟩
        exact ⟨e2, by simp [gatherArms, harm, h2]⟩

/-! ## Claim C3 -/

/-- C3 counterexample, in two parts.  First, an unknown persona key in
the fan-out is silently swallowed: its arm resolves to `null` and is
filtered out, the call succeeds, and the result text carries no error for
it anywhere — there is no per-worker `error` capture.  Second, one
failing worker invocation does not leave the other workers' results in
place: the whole gathering rejects and the tool call fails, so the
remaining workers produce nothing at all. -/
theorem C3_counterexample :
    chorusFullReview (fun k => .ok ("feedback for " ++ k))
        (some ["harsh_critic", "nonexistent_persona", "copy_editor"]) =
      .ok { content := [{ type := "text",
                          text := "# Multi-Perspective Review\n\n## The Harsh Critic\n\nfeedback for harsh_critic\n\n---\n\n## The Copy Editor\n\nfeedback for copy_editor\n\n---\n\n" }] }
    ∧ chorusFullReview
        (fun k => if k == "supportive_reader" then .error "Request timed out"
          else .ok "fine") none =
      .error "Request timed out" :=
  ⟨rfl, rfl⟩

/-- C3 (amended): in the `chorus_full_review` fan-out, an unknown persona
key is not captured as a failure — its arm yields `null` and is filtered
out, so when every worker succeeds the review contains exactly one
section per known selected persona, in order; and a failing worker
invocation is not absorbed into that worker's own error — the whole
gathering rejects, the tool call fails, and the surviving workers'
results are lost. -/
theorem C3_fanout_review :
    (∀ (wf : String → String) (personas : List String),
      chorusFullReview (fun k => .ok (wf k)) (some personas) =
        .ok { content := [{ type := "text",
                            text := (personas.filterMap fun k =>
                                (PERSONAS k).map fun p =>
                                  PersonaFeedback.mk p.name (wf k)).foldl
                              (fun acc r => acc ++ sectionText r)
                              reviewHeader }] })
    ∧ (∀ (worker : String → Except String String) (personas : List String)
        (k : String) (e : String), k ∈ personas →
        (PERSONAS k).isSome = true → worker k = .error e →
        (chorusFullReview worker (some personas)).isOk = false) := by
  constructor
  · intro wf personas
    simp only [chorusFullReview, Option.getD, gatherArms_ok]
    rw [List.filterMap_map]
    rfl
  · intro worker personas k e hk hp he
    rcases gatherArms_error worker personas k e hk hp he with ⟨e2, h2⟩
    have hrun : chorusFullReview worker (some personas) = .error e2 := by
      simp [chorusFullReview, h2]
    rw [hrun]
    rfl

/-- C3 witness: the all-success case at a concrete persona selection, and
the rejection of a concrete review in which one known persona's worker
fails. -/
theorem C3_fanout_review_witness :
    chorusFullReview (fun _ => .ok "solid work")
        (some ["copy_editor", "genre_expert"]) =
      .ok { content := [{ type := "text",
                          text := ((["copy_editor",
                              "genre_expert"].filterMap fun k =>
                              (PERSONAS k).map fun p =>
                                PersonaFeedback.mk p.name "solid work").foldl
                            (fun acc r => acc ++ sectionText r)
                            reviewHeader) }] }
    ∧ (chorusFullReview
        (fun k => if k == "copy_editor" then .error "overloaded"
          else .ok "solid work")
        (some ["copy_editor", "genre_expert"])).isOk = false :=
  ⟨C3_fanout_review.1 (fun _ => "solid work") ["copy_editor", "genre_expert"],
    C3_fanout_review.2
      (fun k => if k == "copy_editor" then .error "overloaded"
        else .ok "solid work")
      ["copy_editor", "genre_expert"] "copy_editor" "overloaded"
      (by decide) (by decide) rfl⟩

end BrainTrust
